import Mathlib

/-!
Verification development for the booking-and-consultation backend
(`german-demo-backend`).  The definitions below are a shallow embedding of
the TypeScript sources:

* `src/models/Booking.ts`, `src/models/ZoomSession.ts`, `src/models/enums.ts`
  (data model, mongoose pre-save and post-save hooks);
* `src/controllers/booking.controller.ts` (`createBooking`, `updateBooking`);
* `src/controllers/zoomSession.controller.ts` (`createZoomSession`);
* `src/controllers/webhook.controller.ts` (`verifyWebhookSignature`,
  `handleWebhookEvent`, `handleRecordingCompleted`, `handleMeetingEnded`,
  `handleMeetingStarted`);
* `src/utils/zoomService.ts` (`getAccessToken`, `makeAuthenticatedRequest`).

Modelling conventions, used throughout:

* JavaScript `Date` values and `Date.now()` timestamps are embedded as their
  epoch-millisecond values (`Int`); the ISO time strings held by a booking
  timeslot are embedded as the instants they denote.
* Mongo ObjectId values are embedded as `Nat`; the `ObjectId.isValid` format
  check is dropped because every embedded id is well-formed by construction.
* Optional string fields follow JavaScript truthiness: a field is "set" when
  it is present and non-empty (`strTruthy`).
* Byte strings (webhook payloads, signatures, secrets) are `List Nat` of
  byte values; UTF-8 encoding of the ASCII data involved is the identity.
* Databases are association lists (`List Booking`, `List ZoomSession`); a
  mongoose `save` is an upsert keyed by document id, running the schema
  hooks exactly as the source registers them.
* Asynchronous calls (mongoose queries, axios requests) are embedded as
  explicit outcome parameters (`Except`/`HttpOutcome`), so a request
  handler is a pure function of its inputs and the outcomes of the calls
  it performs; each handler models one sequential execution.
-/

deriving instance DecidableEq for Except

/-! ## Byte-level crypto: SHA-256, HMAC-SHA256, hex (node `crypto`) -/

/-- Rotate a 32-bit word right by `n` bits. -/
def rotr32 (n x : Nat) : Nat :=
  ((x >>> n) ||| (x <<< (32 - n))) % 4294967296

/-- SHA-256 round constants, written in decimal. -/
def sha256K : List Nat :=
  [1116352408, 1899447441, 3049323471, 3921009573, 961987163,
   1508970993, 2453635748, 2870763221, 3624381080, 310598401,
   607225278, 1426881987, 1925078388, 2162078206, 2614888103,
   3248222580, 3835390401, 4022224774, 264347078, 604807628,
   770255983, 1249150122, 1555081692, 1996064986, 2554220882,
   2821834349, 2952996808, 3210313671, 3336571891, 3584528711,
   113926993, 338241895, 666307205, 773529912, 1294757372,
   1396182291, 1695183700, 1986661051, 2177026350, 2456956037,
   2730485921, 2820302411, 3259730800, 3345764771, 3516065817,
   3600352804, 4094571909, 275423344, 430227734, 506948616,
   659060556, 883997877, 958139571, 1322822218, 1537002063,
   1747873779, 1955562222, 2024104815, 2227730452, 2361852424,
   2428436474, 2756734187, 3204031479, 3329325298]

/-- The eight 32-bit working variables of SHA-256. -/
structure Sha256State where
  a : Nat
  b : Nat
  c : Nat
  d : Nat
  e : Nat
  f : Nat
  g : Nat
  h : Nat
deriving DecidableEq, Repr

/-- SHA-256 initial hash value, written in decimal. -/
def sha256InitState : Sha256State :=
  ⟨1779033703, 3144134277, 1013904242, 2773480762,
   1359893119, 2600822924, 528734635, 1541459225⟩

/-- SHA-256 Σ₀. -/
def bigSigma0 (x : Nat) : Nat := rotr32 2 x ^^^ rotr32 13 x ^^^ rotr32 22 x

/-- SHA-256 Σ₁. -/
def bigSigma1 (x : Nat) : Nat := rotr32 6 x ^^^ rotr32 11 x ^^^ rotr32 25 x

/-- SHA-256 σ₀. -/
def smallSigma0 (x : Nat) : Nat := rotr32 7 x ^^^ rotr32 18 x ^^^ (x >>> 3)

/-- SHA-256 σ₁. -/
def smallSigma1 (x : Nat) : Nat := rotr32 17 x ^^^ rotr32 19 x ^^^ (x >>> 10)

/-- SHA-256 choice function (bitwise negation taken within 32 bits). -/
def shaCh (x y z : Nat) : Nat := (x &&& y) ^^^ ((x ^^^ 4294967295) &&& z)

/-- SHA-256 majority function. -/
def shaMaj (x y z : Nat) : Nat := (x &&& y) ^^^ (x &&& z) ^^^ (y &&& z)

/-- Group a byte list into big-endian 32-bit words (length a multiple of 4). -/
def wordsOfBytes : List Nat → List Nat
  | b0 :: b1 :: b2 :: b3 :: rest =>
      (b0 * 16777216 + b1 * 65536 + b2 * 256 + b3) :: wordsOfBytes rest
  | _ => []

/-- Extend the 16 message words of a block to the 64-entry schedule. -/
def sha256Schedule (w16 : List Nat) : List Nat :=
  (List.range 48).foldl
    (fun w _ =>
      let t := w.length
      let nw := (smallSigma1 (w.getD (t - 2) 0) + w.getD (t - 7) 0 +
                 smallSigma0 (w.getD (t - 15) 0) + w.getD (t - 16) 0) % 4294967296
      w ++ [nw])
    w16

/-- One SHA-256 round, consuming a (round constant, message word) pair. -/
def sha256Round (st : Sha256State) (kw : Nat × Nat) : Sha256State :=
  let t1 := (st.h + bigSigma1 st.e + shaCh st.e st.f st.g + kw.1 + kw.2) % 4294967296
  let t2 := (bigSigma0 st.a + shaMaj st.a st.b st.c) % 4294967296
  ⟨(t1 + t2) % 4294967296, st.a, st.b, st.c, (st.d + t1) % 4294967296, st.e, st.f, st.g⟩

/-- SHA-256 compression of one 64-byte block into the chaining state. -/
def sha256Compress (st : Sha256State) (block : List Nat) : Sha256State :=
  let w := sha256Schedule (wordsOfBytes block)
  let r := (sha256K.zip w).foldl sha256Round st
  ⟨(st.a + r.a) % 4294967296, (st.b + r.b) % 4294967296, (st.c + r.c) % 4294967296,
   (st.d + r.d) % 4294967296, (st.e + r.e) % 4294967296, (st.f + r.f) % 4294967296,
   (st.g + r.g) % 4294967296, (st.h + r.h) % 4294967296⟩

/-- SHA-256 padding: append the byte 128, zeros, and the 64-bit big-endian bit length. -/
def sha256Pad (msg : List Nat) : List Nat :=
  let l := msg.length
  let zeros := (64 - ((l + 9) % 64)) % 64
  let bitLen := 8 * l
  msg ++ [128] ++ List.replicate zeros 0 ++
    [bitLen >>> 56 % 256, bitLen >>> 48 % 256, bitLen >>> 40 % 256, bitLen >>> 32 % 256,
     bitLen >>> 24 % 256, bitLen >>> 16 % 256, bitLen >>> 8 % 256, bitLen % 256]

/-- Big-endian bytes of a 32-bit word. -/
def bytesOfWord (w : Nat) : List Nat :=
  [w >>> 24 % 256, w >>> 16 % 256, w >>> 8 % 256, w % 256]

/-- SHA-256 of a byte list, as a 32-byte list. -/
def sha256 (msg : List Nat) : List Nat :=
  let padded := sha256Pad msg
  let nBlocks := padded.length / 64
  let final := (List.range nBlocks).foldl
    (fun st i => sha256Compress st ((padded.drop (64 * i)).take 64))
    sha256InitState
  bytesOfWord final.a ++ bytesOfWord final.b ++ bytesOfWord final.c ++ bytesOfWord final.d ++
  bytesOfWord final.e ++ bytesOfWord final.f ++ bytesOfWord final.g ++ bytesOfWord final.h

/-- HMAC-SHA256 (RFC 2104) over byte lists, as node `createHmac("sha256", key)`. -/
def hmacSha256 (key msg : List Nat) : List Nat :=
  let key' := if key.length > 64 then sha256 key else key
  let k0 := key' ++ List.replicate (64 - key'.length) 0
  let ipad := k0.map (fun b => b ^^^ 54)
  let opad := k0.map (fun b => b ^^^ 92)
  sha256 (opad ++ sha256 (ipad ++ msg))

/-- Lowercase hex digit (as an ASCII byte) for a nibble. -/
def hexNibble (n : Nat) : Nat := if n < 10 then 48 + n else 87 + n

/-- Lowercase hex encoding of a byte list, as the ASCII bytes of the hex
string (node `digest("hex")`). -/
def hexBytes (l : List Nat) : List Nat :=
  l.flatMap (fun b => [hexNibble (b / 16), hexNibble (b % 16)])

/-! ## Enums and JavaScript-style helpers (`src/models/enums.ts`) -/

/-- Booking payment status (`PaymentStatus` in `enums.ts`). -/
inductive PaymentStatus
  | pending
  | success
  | failed
  | refunded
deriving DecidableEq, Repr

/-- Booking lifecycle status (`BookingStatus` in `enums.ts`). -/
inductive BookingStatus
  | scheduled
  | completed
  | cancelled
  | noShow
deriving DecidableEq, Repr

/-- Zoom session lifecycle status (`ZoomSessionStatus` in `enums.ts`). -/
inductive ZoomSessionStatus
  | scheduled
  | ongoing
  | completed
deriving DecidableEq, Repr

/-- JavaScript truthiness of an optional string field: present and
non-empty.  `undefined`, `null` and the empty string are falsy. -/
def strTruthy : Option String → Bool
  | none => false
  | some s => !(s.isEmpty)

/-- JavaScript `a || b` on optional strings: keeps `a` when truthy,
otherwise yields `b`. -/
def jsOrStr (a b : Option String) : Option String :=
  if strTruthy a then a else b

/-- JavaScript `Math.round (num / den)` for exact rational input with
`den > 0`: rounds halves toward positive infinity. -/
def jsRound (num den : Int) : Int :=
  Int.fdiv (2 * num + den) (2 * den)

/-- A request-body field of an update endpoint: absent from the body,
explicitly cleared (`null` or the empty string), or set to a value. -/
inductive JsField (α : Type)
  | absent
  | clear
  | set (v : α)
deriving DecidableEq, Repr

/-! ## Data model (`src/models/Booking.ts`, `src/models/ZoomSession.ts`) -/

/-- A persisted `Booking` document.  `timeslotStart`/`timeslotEnd` are the
instants denoted by the stored `timeslot.start`/`timeslot.end` strings. -/
structure Booking where
  id : Nat
  userId : Nat
  subAdminId : Nat
  serviceId : Nat
  date : Int
  timeslotStart : Int
  timeslotEnd : Int
  amount : Int
  paymentStatus : PaymentStatus
  zoomLink : Option String
  zoomRecordingLink : Option String
  bookingStatus : BookingStatus
deriving DecidableEq, Repr

/-- A persisted `ZoomSession` document (one the source intends per booking;
the schema itself declares no unique index on `bookingId`). -/
structure ZoomSession where
  id : Nat
  bookingId : Nat
  meetingId : String
  joinUrl : String
  startTime : Int
  endTime : Option Int
  recordingUrl : Option String
  status : ZoomSessionStatus
deriving DecidableEq, Repr

/-- Mongoose `findById` on the booking collection. -/
def findBookingById (bdb : List Booking) (i : Nat) : Option Booking :=
  bdb.find? (fun b => b.id == i)

/-- Upsert a booking document by id (the effect of a successful
`document.save()` on the stored collection). -/
def upsertBooking (bdb : List Booking) (b : Booking) : List Booking :=
  if bdb.any (fun x => x.id == b.id) then
    bdb.map (fun x => if x.id == b.id then b else x)
  else bdb ++ [b]

/-- Model of `BookingSchema.pre("save")` followed by the write: the hook rejects a
document whose `zoomLink` is truthy while `paymentStatus` is not `success`;
otherwise the document is persisted. -/
def saveBooking (bdb : List Booking) (b : Booking) : Except String (List Booking) :=
  if strTruthy b.zoomLink && !(b.paymentStatus == PaymentStatus.success) then
    Except.error "Cannot create Zoom link before successful payment."
  else
    Except.ok (upsertBooking bdb b)

/-- The update performed by `ZoomSessionSchema.post("save")`:
`BookingModel.findByIdAndUpdate(doc.bookingId, w/ bookingStatus, zoomRecordingLink)`.
Mongoose strips update keys whose value is `undefined`, so an absent
`recordingUrl` leaves the stored `zoomRecordingLink` unchanged.
`findByIdAndUpdate` runs no document middleware, so the booking pre-save
hook is not consulted here. -/
def bookingCompletedUpdate (bdb : List Booking) (bid : Nat) (recUrl : Option String) :
    List Booking :=
  bdb.map (fun b =>
    if b.id == bid then
      { b with
        bookingStatus := BookingStatus.completed,
        zoomRecordingLink :=
          match recUrl with
          | some r => some r
          | none => b.zoomRecordingLink }
    else b)

/-- Upsert a zoom session document by id. -/
def upsertSession (sdb : List ZoomSession) (s : ZoomSession) : List ZoomSession :=
  if sdb.any (fun x => x.id == s.id) then
    sdb.map (fun x => if x.id == s.id then s else x)
  else sdb ++ [s]

/-- A `ZoomSession` `document.save()`: persist the session, then run
`ZoomSessionSchema.post("save")`, which marks the owning booking completed
(and mirrors the recording url) whenever the saved session is completed. -/
def saveSession (sdb : List ZoomSession) (bdb : List Booking) (s : ZoomSession) :
    List ZoomSession × List Booking :=
  let sdb' := upsertSession sdb s
  let bdb' :=
    if s.status == ZoomSessionStatus.completed then
      bookingCompletedUpdate bdb s.bookingId s.recordingUrl
    else bdb
  (sdb', bdb')

/-- Mongoose `findOne` by meeting id on the session collection. -/
def findSessionByMeetingId (sdb : List ZoomSession) (mid : String) : Option ZoomSession :=
  sdb.find? (fun s => s.meetingId == mid)

/-- Mongoose `findOne` by booking id on the session collection. -/
def findSessionByBookingId (sdb : List ZoomSession) (bid : Nat) : Option ZoomSession :=
  sdb.find? (fun s => s.bookingId == bid)

/-! ## Webhook controller (`src/controllers/webhook.controller.ts`) -/

/-- A recording file as it appears in the Zoom recordings response and in
the `recording.completed` webhook payload; `play_url`/`download_url` may be
absent. -/
structure RecordingFile where
  file_type : String
  play_url : Option String
  download_url : Option String
deriving DecidableEq, Repr

/-- The file selection of `handleRecordingCompleted`: the first file whose
type is MP4 or M4A, else the first file of the array. -/
def pickRecordingFile (files : List RecordingFile) : Option RecordingFile :=
  match files.find? (fun f => f.file_type == "MP4" || f.file_type == "M4A") with
  | some f => some f
  | none => files.head?

/-- The recording url `handleRecordingCompleted` derives: try the Zoom API
response first (when the call succeeded and returned a non-empty
`recording_files` array), preferring `play_url` over `download_url`; when
that produced nothing truthy, fall back to the `recording_files` array
embedded in the webhook payload, if any. -/
def selectRecordingUrl (apiResult : Except String (Option (List RecordingFile)))
    (webhookFiles : Option (List RecordingFile)) : Option String :=
  let urlApi : Option String :=
    match apiResult with
    | Except.error _ => none
    | Except.ok none => none
    | Except.ok (some files) =>
      if files.length > 0 then
        match pickRecordingFile files with
        | some f => jsOrStr f.play_url f.download_url
        | none => none
      else none
  if strTruthy urlApi then urlApi
  else
    match webhookFiles with
    | none => urlApi
    | some wf =>
      match pickRecordingFile wf with
      | none => urlApi
      | some f => jsOrStr f.play_url f.download_url

/-- Model of `handleRecordingCompleted(payload)`: no-op when the payload carries no
meeting id or no session matches; otherwise derive a recording url (API
first, webhook payload as fallback) and save the session as completed,
with the url when one was found. -/
def handleRecordingCompleted (sdb : List ZoomSession) (bdb : List Booking)
    (meetingId : Option String)
    (apiResult : Except String (Option (List RecordingFile)))
    (webhookFiles : Option (List RecordingFile)) :
    List ZoomSession × List Booking :=
  match meetingId with
  | none => (sdb, bdb)
  | some mid =>
    match findSessionByMeetingId sdb mid with
    | none => (sdb, bdb)
    | some s =>
      let url := selectRecordingUrl apiResult webhookFiles
      if strTruthy url then
        saveSession sdb bdb { s with recordingUrl := url, status := ZoomSessionStatus.completed }
      else
        saveSession sdb bdb { s with status := ZoomSessionStatus.completed }

/-- Model of `handleMeetingEnded(payload)`: record the wall-clock end time on the
matching session (status deliberately left unchanged). -/
def handleMeetingEnded (sdb : List ZoomSession) (bdb : List Booking)
    (meetingId : Option String) (now : Int) : List ZoomSession × List Booking :=
  match meetingId with
  | none => (sdb, bdb)
  | some mid =>
    match findSessionByMeetingId sdb mid with
    | none => (sdb, bdb)
    | some s => saveSession sdb bdb { s with endTime := some now }

/-- Model of `handleMeetingStarted(payload)`: set the matching session to `ongoing`
(unconditionally on its current status). -/
def handleMeetingStarted (sdb : List ZoomSession) (bdb : List Booking)
    (meetingId : Option String) : List ZoomSession × List Booking :=
  match meetingId with
  | none => (sdb, bdb)
  | some mid =>
    match findSessionByMeetingId sdb mid with
    | none => (sdb, bdb)
    | some s => saveSession sdb bdb { s with status := ZoomSessionStatus.ongoing }

/-- Model of `verifyWebhookSignature(payload, signature, timestamp)`: with no
configured secret, verification is skipped (returns true).  Otherwise the
expected signature is `v0=` followed by the lowercase hex HMAC-SHA256 of
`v0:timestamp:payload` under the secret, and `crypto.timingSafeEqual`
compares it with the provided signature: it returns their equality when
the byte lengths agree and throws otherwise (modelled as `Except.error`). -/
def verifyWebhookSignature (secret : List Nat) (payload signature timestamp : List Nat) :
    Except Unit Bool :=
  if secret.isEmpty then Except.ok true
  else
    let message := [118, 48, 58] ++ timestamp ++ [58] ++ payload
    let expected := [118, 48, 61] ++ hexBytes (hmacSha256 secret message)
    if signature.length = expected.length then Except.ok (signature = expected)
    else Except.error ()

/-- The expected signature bytes computed by `verifyWebhookSignature`
(`v0=` + hex HMAC-SHA256 of `v0:timestamp:payload`). -/
def expectedSignature (secret timestamp payload : List Nat) : List Nat :=
  [118, 48, 61] ++ hexBytes (hmacSha256 secret ([118, 48, 58] ++ timestamp ++ [58] ++ payload))

/-- JavaScript truthiness of an optional header value (bytes). -/
def bytesTruthy : Option (List Nat) → Bool
  | none => false
  | some l => !(l.isEmpty)

/-- The HTTP reply of a handler, reduced to the observables the claims
mention: the status code and the `success` flag of the JSON body. -/
structure ApiResponse where
  status : Nat
  success : Bool
deriving DecidableEq, Repr

/-- The outcomes of the asynchronous calls `handleWebhookEvent` may issue:
the wall clock and the `getMeetingRecordings` result. -/
structure WebhookEnv where
  now : Int
  apiResult : Except String (Option (List RecordingFile))
deriving Repr

/-- Model of `handleWebhookEvent(req, res)`: the `endpoint.url_validation` handshake
answers first; then, when both signature headers are present (truthy), the
signature is verified — a thrown `timingSafeEqual` length error is caught
by the outer handler, which answers 200 with `success:false`; a clean
mismatch answers 401; otherwise the event is dispatched by type and the
endpoint acknowledges with 200. -/
def handleWebhookEvent (secret : List Nat) (sig ts : Option (List Nat))
    (bodyBytes : List Nat) (event : String) (plainToken : Option String)
    (payloadMeetingId : Option String) (webhookFiles : Option (List RecordingFile))
    (env : WebhookEnv) (sdb : List ZoomSession) (bdb : List Booking) :
    ApiResponse × List ZoomSession × List Booking :=
  if event == "endpoint.url_validation" then
    match plainToken with
    | none => (⟨400, false⟩, sdb, bdb)
    | some _ => (⟨200, true⟩, sdb, bdb)
  else
    let dispatch : List ZoomSession × List Booking :=
      if event == "recording.completed" then
        handleRecordingCompleted sdb bdb payloadMeetingId env.apiResult webhookFiles
      else if event == "meeting.ended" then
        handleMeetingEnded sdb bdb payloadMeetingId env.now
      else if event == "meeting.started" then
        handleMeetingStarted sdb bdb payloadMeetingId
      else (sdb, bdb)
    if bytesTruthy sig && bytesTruthy ts then
      match verifyWebhookSignature secret bodyBytes (sig.getD []) (ts.getD []) with
      | Except.error _ => (⟨200, false⟩, sdb, bdb)
      | Except.ok false => (⟨401, false⟩, sdb, bdb)
      | Except.ok true => (⟨200, true⟩, dispatch.1, dispatch.2)
    else (⟨200, true⟩, dispatch.1, dispatch.2)

/-! ## Zoom service (`src/utils/zoomService.ts`) -/

/-- The process-wide token cache of the `ZoomService` singleton
(`accessToken`, `tokenExpiry`). -/
structure TokenState where
  accessToken : Option String
  tokenExpiry : Int
deriving DecidableEq, Repr

/-- The configured Zoom credentials (`ZOOM_ACCOUNT_ID`, `ZOOM_CLIENT_ID`,
`ZOOM_CLIENT_SECRET`), each possibly absent or empty. -/
structure ZoomCredentials where
  accountId : Option String
  clientId : Option String
  clientSecret : Option String
deriving DecidableEq, Repr

/-- The body of a successful token-endpoint reply.  `access_token` is kept
optional because the code checks its truthiness before trusting it. -/
structure TokenResponse where
  access_token : Option String
  expires_in : Int
deriving DecidableEq, Repr

/-- The missing-credential guard of `getAccessToken`. -/
def credsMissing (c : ZoomCredentials) : Bool :=
  !(strTruthy c.accountId) || !(strTruthy c.clientId) || !(strTruthy c.clientSecret)

/-- The observables of one `getAccessToken()` call: the value returned or
error thrown, the token cache afterwards, and how many token-exchange
HTTP requests were issued (0 or 1). -/
structure GetTokenResult where
  result : Except String String
  state : TokenState
  tokenRequests : Nat
deriving DecidableEq, Repr

/-- Model of `ZoomService.getAccessToken()` at instant `now`, with `fetch` the
outcome the token endpoint would deliver: return the cached token while
`now < tokenExpiry`; otherwise require credentials and exchange them,
caching the new token with expiry `now + (expires_in - 60) seconds`. -/
def getAccessToken (c : ZoomCredentials) (now : Int)
    (fetch : Except String TokenResponse) (st : TokenState) : GetTokenResult :=
  if strTruthy st.accessToken && now < st.tokenExpiry then
    ⟨Except.ok (st.accessToken.getD ""), st, 0⟩
  else if credsMissing c then
    ⟨Except.error "Zoom credentials are missing", st, 0⟩
  else
    match fetch with
    | Except.error e => ⟨Except.error ("Failed to authenticate with Zoom: " ++ e), st, 1⟩
    | Except.ok r =>
      if strTruthy r.access_token then
        ⟨Except.ok (r.access_token.getD ""),
         ⟨r.access_token, now + (r.expires_in - 60) * 1000⟩, 1⟩
      else
        ⟨Except.error "Failed to authenticate with Zoom: Failed to obtain Zoom access token",
         st, 1⟩

/-- Outcome of one axios meeting-API request: payload on success, HTTP
status (when a response arrived) and message on failure. -/
inductive HttpOutcome (α : Type)
  | ok (data : α)
  | err (status : Option Nat) (msg : String)
deriving DecidableEq, Repr

/-- How a `makeAuthenticatedRequest` failure reaches the caller: an
authentication error thrown by `getAccessToken`, the wrapped
`Zoom API error: …` thrown for a non-401 failure of the first call, or the
unwrapped upstream error propagated when the single retry fails. -/
inductive ZoomRequestError
  | authError (msg : String)
  | apiError (msg : String)
  | httpError (status : Option Nat) (msg : String)
deriving DecidableEq, Repr

/-- The observables of one `makeAuthenticatedRequest` call: result, token
cache afterwards, token-exchange requests issued, and meeting-API calls
issued. -/
structure AuthRequestResult (α : Type) where
  result : Except ZoomRequestError α
  state : TokenState
  tokenRequests : Nat
  apiCalls : Nat
deriving DecidableEq, Repr

/-- Model of `ZoomService.makeAuthenticatedRequest(method, endpoint, data)`, with
`first`/`retry` the outcomes the meeting API would deliver to the first
and to the retried call, and `fetch1`/`fetch2` the outcomes of the token
endpoint for the initial and the post-401 token acquisition.  On a 401 the
cached token is cleared, re-acquired, and the request retried exactly
once, whose outcome is surfaced as is; any non-401 failure is wrapped as a
`Zoom API error` without retrying. -/
def makeAuthenticatedRequest {α : Type} (c : ZoomCredentials) (now : Int)
    (fetch1 fetch2 : Except String TokenResponse)
    (first retry : HttpOutcome α) (st : TokenState) : AuthRequestResult α :=
  let g1 := getAccessToken c now fetch1 st
  match g1.result with
  | Except.error e => ⟨Except.error (ZoomRequestError.authError e), g1.state, g1.tokenRequests, 0⟩
  | Except.ok _ =>
    match first with
    | HttpOutcome.ok d => ⟨Except.ok d, g1.state, g1.tokenRequests, 1⟩
    | HttpOutcome.err status msg =>
      if status == some 401 then
        let cleared : TokenState := ⟨none, g1.state.tokenExpiry⟩
        let g2 := getAccessToken c now fetch2 cleared
        match g2.result with
        | Except.error e =>
          ⟨Except.error (ZoomRequestError.authError e), g2.state,
           g1.tokenRequests + g2.tokenRequests, 1⟩
        | Except.ok _ =>
          match retry with
          | HttpOutcome.ok d =>
            ⟨Except.ok d, g2.state, g1.tokenRequests + g2.tokenRequests, 2⟩
          | HttpOutcome.err s2 m2 =>
            ⟨Except.error (ZoomRequestError.httpError s2 m2), g2.state,
             g1.tokenRequests + g2.tokenRequests, 2⟩
      else
        ⟨Except.error (ZoomRequestError.apiError ("Zoom API error: " ++ msg)), g1.state,
         g1.tokenRequests, 1⟩

/-! ## Booking controller (`src/controllers/booking.controller.ts`) -/

/-- What `zoomService.createMeeting` returns, reduced to the fields the
controllers consume: the meeting id (already a string, as the controllers
apply `toString()`) and the join url. -/
structure ZoomMeetingInfo where
  meetingIdStr : String
  join_url : String
deriving DecidableEq, Repr

/-- The environment a booking-controller call runs against: the existing
user and service ids (for the referenced-entity lookups), the outcomes of
the provider calls the flow may issue, and the fresh document ids mongoose
would mint. -/
structure BookingEnv where
  users : List Nat
  services : List Nat
  createMeetingResult : Except String ZoomMeetingInfo
  updateMeetingResult : Except String Unit
  freshBookingId : Nat
  freshSessionId : Nat
deriving Repr

/-- The body of a `createBooking` request.  Field presence mirrors the
`req.body` destructuring; enum-valued fields are typed, so the
invalid-enum 400 paths are unreachable in the embedding. -/
structure CreateBookingRequest where
  userId : Option Nat
  subAdminId : Option Nat
  serviceId : Option Nat
  date : Option Int
  timeslot : Option (Int × Int)
  amount : Option Int
  paymentStatus : Option PaymentStatus
  zoomLink : Option String
  zoomRecordingLink : Option String
  bookingStatus : Option BookingStatus
deriving Repr

/-- The zoom block of `createBooking` (its failures never fail the booking
creation): derive the duration from the timeslot, and unless it is shorter
than a minute or the provider call fails, record a session; when payment
is already successful, expose the join link on the booking. -/
def createBookingZoomPhase (env : BookingEnv) (bdb1 : List Booking) (sdb : List ZoomSession)
    (booking : Booking) (finalPS : PaymentStatus) (ts : Int × Int) :
    List Booking × List ZoomSession :=
  let durationMinutes := jsRound (ts.2 - ts.1) 60000
  if durationMinutes < 1 then (bdb1, sdb)
  else
    match env.createMeetingResult with
    | Except.error _ => (bdb1, sdb)
    | Except.ok m =>
      let sess : ZoomSession :=
        { id := env.freshSessionId, bookingId := booking.id,
          meetingId := m.meetingIdStr, joinUrl := m.join_url,
          startTime := ts.1, endTime := some ts.2,
          recordingUrl := none, status := ZoomSessionStatus.scheduled }
      let sb := saveSession sdb bdb1 sess
      if finalPS == PaymentStatus.success then
        match saveBooking sb.2 { booking with zoomLink := some m.join_url } with
        | Except.error _ => (sb.2, sb.1)
        | Except.ok bdb3 => (bdb3, sb.1)
      else (sb.2, sb.1)

/-- Model of `createBooking(req, res)`: validate, persist the booking, then attempt
(non-fatally) to schedule the meeting and record a session; expose the
join link on the booking only when payment is already successful.  Result:
the HTTP reply and the booking and session collections afterwards. -/
def createBooking (env : BookingEnv) (bdb : List Booking) (sdb : List ZoomSession)
    (req : CreateBookingRequest) : ApiResponse × List Booking × List ZoomSession :=
  match req.userId, req.subAdminId, req.serviceId, req.date, req.timeslot, req.amount with
  | some uid, some aid, some sid, some date, some ts, some amount =>
    if !(env.users.contains uid) then (⟨404, false⟩, bdb, sdb)
    else if !(env.users.contains aid) then (⟨404, false⟩, bdb, sdb)
    else if !(env.services.contains sid) then (⟨404, false⟩, bdb, sdb)
    else if amount < 0 then (⟨400, false⟩, bdb, sdb)
    else
      let finalPS := req.paymentStatus.getD PaymentStatus.pending
      if strTruthy req.zoomLink && !(finalPS == PaymentStatus.success) then
        (⟨400, false⟩, bdb, sdb)
      else
        let booking : Booking :=
          { id := env.freshBookingId, userId := uid, subAdminId := aid, serviceId := sid,
            date := date, timeslotStart := ts.1, timeslotEnd := ts.2, amount := amount,
            paymentStatus := finalPS, zoomLink := req.zoomLink,
            zoomRecordingLink := req.zoomRecordingLink,
            bookingStatus := req.bookingStatus.getD BookingStatus.scheduled }
        match saveBooking bdb booking with
        | Except.error _ => (⟨500, false⟩, bdb, sdb)
        | Except.ok bdb1 =>
          let bs := createBookingZoomPhase env bdb1 sdb booking finalPS ts
          (⟨201, true⟩, bs.1, bs.2)
  | _, _, _, _, _, _ => (⟨400, false⟩, bdb, sdb)

/-- The body of an `updateBooking` request; `zoomLink` and
`zoomRecordingLink` distinguish absent, clearing (`null`/empty) and
setting values, as the controller does. -/
structure UpdateBookingRequest where
  userId : Option Nat
  subAdminId : Option Nat
  serviceId : Option Nat
  date : Option Int
  timeslot : Option (Int × Int)
  amount : Option Int
  paymentStatus : Option PaymentStatus
  zoomLink : JsField String
  zoomRecordingLink : JsField String
  bookingStatus : Option BookingStatus
deriving Repr

/-- An update request with every field absent. -/
def emptyUpdateRequest : UpdateBookingRequest :=
  ⟨none, none, none, none, none, none, none, JsField.absent, JsField.absent, none⟩

/-- The field-validation-and-assignment phase of `updateBooking`: apply
each supplied field to the loaded document, answering 404/400 on a failed
lookup or a `zoomLink` supplied while the (possibly just updated) payment
status is not `success`.  No store write happens here. -/
def applyUpdateFields (env : BookingEnv) (b : Booking) (req : UpdateBookingRequest) :
    Except ApiResponse Booking :=
  match (match req.userId with
         | none => Except.ok b
         | some uid =>
           if env.users.contains uid then Except.ok { b with userId := uid }
           else Except.error (⟨404, false⟩ : ApiResponse)) with
  | Except.error r => Except.error r
  | Except.ok b1 =>
  match (match req.subAdminId with
         | none => Except.ok b1
         | some aid =>
           if env.users.contains aid then Except.ok { b1 with subAdminId := aid }
           else Except.error (⟨404, false⟩ : ApiResponse)) with
  | Except.error r => Except.error r
  | Except.ok b2 =>
  match (match req.serviceId with
         | none => Except.ok b2
         | some sid =>
           if env.services.contains sid then Except.ok { b2 with serviceId := sid }
           else Except.error (⟨404, false⟩ : ApiResponse)) with
  | Except.error r => Except.error r
  | Except.ok b3 =>
  let b4 := match req.date with
            | none => b3
            | some d => { b3 with date := d }
  let b5 := match req.timeslot with
            | none => b4
            | some ts => { b4 with timeslotStart := ts.1, timeslotEnd := ts.2 }
  match (match req.amount with
         | none => Except.ok b5
         | some a =>
           if a < 0 then Except.error (⟨400, false⟩ : ApiResponse)
           else Except.ok { b5 with amount := a }) with
  | Except.error r => Except.error r
  | Except.ok b6 =>
  let b7 := match req.paymentStatus with
            | none => b6
            | some ps => { b6 with paymentStatus := ps }
  let b8 := match req.bookingStatus with
            | none => b7
            | some bs => { b7 with bookingStatus := bs }
  match (match req.zoomLink with
         | JsField.absent => Except.ok b8
         | JsField.clear => Except.ok { b8 with zoomLink := none }
         | JsField.set s =>
           if b8.paymentStatus == PaymentStatus.success then
             Except.ok { b8 with zoomLink := some s }
           else Except.error (⟨400, false⟩ : ApiResponse)) with
  | Except.error r => Except.error r
  | Except.ok b9 =>
    match req.zoomRecordingLink with
    | JsField.absent => Except.ok b9
    | JsField.clear => Except.ok { b9 with zoomRecordingLink := none }
    | JsField.set s => Except.ok { b9 with zoomRecordingLink := some s }

/-- The timeslot step of the `updateBooking` zoom block: when the request
carried a timeslot and the recomputed duration is at least one minute,
update the provider meeting and save the session with the new window; a
failed provider call aborts the zoom block (caught by its handler). -/
def updateTimeslotPhase (env : BookingEnv) (bdb : List Booking) (sdb : List ZoomSession)
    (sess : ZoomSession) (req : UpdateBookingRequest) : List Booking × List ZoomSession :=
  match req.timeslot with
  | none => (bdb, sdb)
  | some ts =>
    let durationMinutes := jsRound (ts.2 - ts.1) 60000
    if durationMinutes >= 1 then
      match env.updateMeetingResult with
      | Except.error _ => (bdb, sdb)
      | Except.ok _ =>
        let sb := saveSession sdb bdb { sess with startTime := ts.1, endTime := some ts.2 }
        (sb.2, sb.1)
    else (bdb, sdb)

/-- The legacy-backfill step of the `updateBooking` zoom block: with no
session on file and payment now successful, create a meeting and a session
for the booking and expose the join link on it; every failure leaves the
stores as they were (caught by the zoom-block handler). -/
def legacySessionCreatePhase (env : BookingEnv) (bdb : List Booking) (sdb : List ZoomSession)
    (b : Booking) : List Booking × List ZoomSession :=
  let durationMinutes := jsRound (b.timeslotEnd - b.timeslotStart) 60000
  if durationMinutes >= 1 then
    if env.users.contains b.userId && env.users.contains b.subAdminId &&
       env.services.contains b.serviceId then
      match env.createMeetingResult with
      | Except.error _ => (bdb, sdb)
      | Except.ok m =>
        let sess : ZoomSession :=
          { id := env.freshSessionId, bookingId := b.id, meetingId := m.meetingIdStr,
            joinUrl := m.join_url, startTime := b.timeslotStart,
            endTime := some b.timeslotEnd, recordingUrl := none,
            status := ZoomSessionStatus.scheduled }
        let sb := saveSession sdb bdb sess
        match saveBooking sb.2 { b with zoomLink := some m.join_url } with
        | Except.error _ => (sb.2, sb.1)
        | Except.ok bdb2 => (bdb2, sb.1)
    else (bdb, sdb)
  else (bdb, sdb)

/-- The zoom block of `updateBooking` (all failures swallowed by its
handler): with a session on file, expose its join link when payment just
transitioned to `success`, then apply a timeslot change; with none, create
a session when payment is successful. -/
def updateBookingZoomPhase (env : BookingEnv) (bdb : List Booking) (sdb : List ZoomSession)
    (b : Booking) (req : UpdateBookingRequest) (originalPS : PaymentStatus) :
    List Booking × List ZoomSession :=
  match findSessionByBookingId sdb b.id with
  | some sess =>
    if req.paymentStatus == some PaymentStatus.success &&
       !(originalPS == PaymentStatus.success) then
      match saveBooking bdb { b with zoomLink := some sess.joinUrl } with
      | Except.error _ => (bdb, sdb)
      | Except.ok bdb1 => updateTimeslotPhase env bdb1 sdb sess req
    else updateTimeslotPhase env bdb sdb sess req
  | none =>
    if req.paymentStatus == some PaymentStatus.success then
      legacySessionCreatePhase env bdb sdb b
    else (bdb, sdb)

/-- Model of `updateBooking(req, res)`: load the booking, apply the supplied fields
(with the payment gate on `zoomLink`), persist, then run the zoom block;
its failures never fail the update response. -/
def updateBooking (env : BookingEnv) (bdb : List Booking) (sdb : List ZoomSession)
    (id : Nat) (req : UpdateBookingRequest) : ApiResponse × List Booking × List ZoomSession :=
  match findBookingById bdb id with
  | none => (⟨404, false⟩, bdb, sdb)
  | some b0 =>
    let originalPS := b0.paymentStatus
    match applyUpdateFields env b0 req with
    | Except.error resp => (resp, bdb, sdb)
    | Except.ok b1 =>
      match saveBooking bdb b1 with
      | Except.error _ => (⟨500, false⟩, bdb, sdb)
      | Except.ok bdb1 =>
        let bs := updateBookingZoomPhase env bdb1 sdb b1 req originalPS
        (⟨200, true⟩, bs.1, bs.2)

/-! ## ZoomSession controller (`src/controllers/zoomSession.controller.ts`) -/

/-- The body of a `createZoomSession` request. -/
structure CreateSessionRequest where
  bookingId : Option Nat
  meetingId : String
  joinUrl : String
  startTime : Option Int
  endTime : Option Int
  recordingUrl : Option String
  status : Option ZoomSessionStatus
deriving Repr

/-- Model of `createZoomSession(req, res)`: validate required fields, the booking
reference and the time window, answer 409 when a session already exists
for the booking (the one-to-one guard), else persist the new session. -/
def createZoomSession (freshId : Nat) (bdb : List Booking) (sdb : List ZoomSession)
    (req : CreateSessionRequest) : ApiResponse × List ZoomSession × List Booking :=
  match req.bookingId, req.startTime with
  | some bid, some startT =>
    if req.meetingId.isEmpty || req.joinUrl.isEmpty then (⟨400, false⟩, sdb, bdb)
    else if !(bdb.any (fun b => b.id == bid)) then (⟨404, false⟩, sdb, bdb)
    else if (match req.endTime with
             | some e => decide (e ≤ startT)
             | none => false : Bool) then (⟨400, false⟩, sdb, bdb)
    else
      match findSessionByBookingId sdb bid with
      | some _ => (⟨409, false⟩, sdb, bdb)
      | none =>
        let sess : ZoomSession :=
          { id := freshId, bookingId := bid, meetingId := req.meetingId,
            joinUrl := req.joinUrl, startTime := startT, endTime := req.endTime,
            recordingUrl := req.recordingUrl,
            status := req.status.getD ZoomSessionStatus.scheduled }
        let sb := saveSession sdb bdb sess
        (⟨201, true⟩, sb.1, sb.2)
  | _, _ => (⟨400, false⟩, sdb, bdb)

/-! ## Invariants and helper lemmas -/

/-- The link-gating property of one booking record: a truthy (non-empty)
`zoomLink` implies a successful payment. -/
def BookingInv (b : Booking) : Prop :=
  strTruthy b.zoomLink = true → b.paymentStatus = PaymentStatus.success

/-- Link gating over the whole booking collection. -/
def DBInv (bdb : List Booking) : Prop :=
  ∀ b ∈ bdb, BookingInv b

/-- At most one session per booking id: two stored sessions with the same
`bookingId` coincide. -/
def AtMostOneSessionPerBooking (sdb : List ZoomSession) : Prop :=
  ∀ x ∈ sdb, ∀ y ∈ sdb, x.bookingId = y.bookingId → x = y

/-- Stored sessions are distinguished by their document ids. -/
def SessionIdsUnique (sdb : List ZoomSession) : Prop :=
  ∀ x ∈ sdb, ∀ y ∈ sdb, x.id = y.id → x = y

theorem mem_upsertBooking {bdb : List Booking} {b x : Booking}
    (hx : x ∈ upsertBooking bdb b) : x = b ∨ x ∈ bdb := by
  unfold upsertBooking at hx
  split at hx
  · obtain ⟨y, hy, hxy⟩ := List.mem_map.mp hx
    by_cases h : y.id == b.id
    · simp [h] at hxy; exact Or.inl hxy.symm
    · simp [h] at hxy; exact Or.inr (hxy ▸ hy)
  · rcases List.mem_append.mp hx with h | h
    · exact Or.inr h
    · simp at h; exact Or.inl h

theorem self_mem_upsertBooking (bdb : List Booking) (b : Booking) :
    b ∈ upsertBooking bdb b := by
  unfold upsertBooking
  split
  · rename_i h
    obtain ⟨y, hy, hyb⟩ := List.any_eq_true.mp h
    refine List.mem_map.mpr ⟨y, hy, ?_⟩
    simp [hyb]
  · simp

theorem saveBooking_ok_inv {bdb bdb' : List Booking} {b : Booking}
    (h : saveBooking bdb b = Except.ok bdb') : BookingInv b := by
  unfold saveBooking at h
  split at h
  · exact absurd h (by simp)
  · rename_i hc
    intro htr
    simp [htr] at hc
    simpa using hc

theorem saveBooking_ok_eq {bdb bdb' : List Booking} {b : Booking}
    (h : saveBooking bdb b = Except.ok bdb') : bdb' = upsertBooking bdb b := by
  unfold saveBooking at h
  split at h
  · exact absurd h (by simp)
  · simpa using h.symm

theorem saveBooking_rejects {bdb : List Booking} {b : Booking}
    (hlink : strTruthy b.zoomLink = true)
    (hps : b.paymentStatus ≠ PaymentStatus.success) :
    saveBooking bdb b =
      Except.error "Cannot create Zoom link before successful payment." := by
  unfold saveBooking
  have : (strTruthy b.zoomLink && !(b.paymentStatus == PaymentStatus.success)) = true := by
    simp [hlink, hps]
  simp [this]

theorem dbInv_saveBooking {bdb bdb' : List Booking} {b : Booking}
    (hinv : DBInv bdb) (h : saveBooking bdb b = Except.ok bdb') : DBInv bdb' := by
  intro x hx
  rw [saveBooking_ok_eq h] at hx
  rcases mem_upsertBooking hx with rfl | hmem
  · exact saveBooking_ok_inv h
  · exact hinv x hmem

theorem dbInv_bookingCompletedUpdate {bdb : List Booking} (hinv : DBInv bdb)
    (bid : Nat) (recUrl : Option String) :
    DBInv (bookingCompletedUpdate bdb bid recUrl) := by
  intro x hx
  unfold bookingCompletedUpdate at hx
  obtain ⟨y, hy, hxy⟩ := List.mem_map.mp hx
  by_cases h : y.id == bid
  · simp only [h, if_true] at hxy
    subst hxy
    intro htr
    exact hinv y hy htr
  · simp only [h, if_false] at hxy
    exact hxy ▸ hinv y hy

theorem dbInv_saveSession {sdb : List ZoomSession} {bdb : List Booking}
    (hinv : DBInv bdb) (s : ZoomSession) : DBInv (saveSession sdb bdb s).2 := by
  unfold saveSession
  dsimp only
  split
  · exact dbInv_bookingCompletedUpdate hinv _ _
  · exact hinv

theorem map_id_of_mem {α : Type} {l : List α} {f : α → α} (h : ∀ x ∈ l, f x = x) :
    l.map f = l := by
  induction l with
  | nil => rfl
  | cons a t ih =>
    simp only [List.map_cons, h a (List.mem_cons_self a t)]
    rw [ih (fun x hx => h x (List.mem_cons_of_mem a hx))]

theorem mem_upsertSession {sdb : List ZoomSession} {s x : ZoomSession}
    (hx : x ∈ upsertSession sdb s) : x = s ∨ x ∈ sdb := by
  unfold upsertSession at hx
  split at hx
  · obtain ⟨y, hy, hxy⟩ := List.mem_map.mp hx
    by_cases h : y.id == s.id
    · simp [h] at hxy; exact Or.inl hxy.symm
    · simp [h] at hxy; exact Or.inr (hxy ▸ hy)
  · rcases List.mem_append.mp hx with h | h
    · exact Or.inr h
    · simp at h; exact Or.inl h

theorem upsertSession_self {sdb : List ZoomSession} {s : ZoomSession}
    (huniq : SessionIdsUnique sdb) (hs : s ∈ sdb) : upsertSession sdb s = sdb := by
  unfold upsertSession
  have hany : sdb.any (fun x => x.id == s.id) = true :=
    List.any_eq_true.mpr ⟨s, hs, by simp⟩
  simp only [hany, if_true]
  apply map_id_of_mem
  intro x hx
  by_cases h : x.id == s.id
  · simp only [h, if_true]
    exact (huniq x hx s hs (by simpa using h)).symm
  · simp [h]

theorem bookingCompletedUpdate_self {bdb : List Booking} {bid : Nat} {recUrl : Option String}
    (h : ∀ b ∈ bdb, b.id = bid → b.bookingStatus = BookingStatus.completed ∧
      (∀ r, recUrl = some r → b.zoomRecordingLink = some r)) :
    bookingCompletedUpdate bdb bid recUrl = bdb := by
  unfold bookingCompletedUpdate
  apply map_id_of_mem
  intro b hb
  by_cases hid : b.id == bid
  · obtain ⟨hstat, hrec⟩ := h b hb (by simpa using hid)
    simp only [hid, if_true]
    cases hrecUrl : recUrl with
    | none => cases b; simp_all
    | some r => cases b; simp_all [hrec r hrecUrl]
  · simp [hid]


theorem dbInv_updateTimeslotPhase (env : BookingEnv) (bdb : List Booking)
    (sdb : List ZoomSession) (sess : ZoomSession) (req : UpdateBookingRequest)
    (hinv : DBInv bdb) : DBInv (updateTimeslotPhase env bdb sdb sess req).1 := by
  unfold updateTimeslotPhase
  try dsimp only
  repeat' split
  all_goals try dsimp only
  all_goals first
    | exact hinv
    | exact dbInv_saveSession hinv _

theorem dbInv_createBookingZoomPhase (env : BookingEnv) (bdb1 : List Booking)
    (sdb : List ZoomSession) (booking : Booking) (finalPS : PaymentStatus)
    (ts : Int × Int) (hinv : DBInv bdb1) :
    DBInv (createBookingZoomPhase env bdb1 sdb booking finalPS ts).1 := by
  unfold createBookingZoomPhase
  try dsimp only
  repeat' split
  all_goals try dsimp only
  all_goals first
    | exact hinv
    | exact dbInv_saveSession hinv _
    | (rename_i bdb3 hsave; exact dbInv_saveBooking (dbInv_saveSession hinv _) hsave)

theorem dbInv_createBooking (env : BookingEnv) (bdb : List Booking) (sdb : List ZoomSession)
    (req : CreateBookingRequest) (hinv : DBInv bdb) :
    DBInv (createBooking env bdb sdb req).2.1 := by
  unfold createBooking
  try dsimp only
  repeat' split
  all_goals try dsimp only
  all_goals first
    | exact hinv
    | (rename_i bdb1 hsave; exact dbInv_createBookingZoomPhase env bdb1 sdb _ _ _
        (dbInv_saveBooking hinv hsave))

theorem dbInv_legacySessionCreatePhase (env : BookingEnv) (bdb : List Booking)
    (sdb : List ZoomSession) (b : Booking) (hinv : DBInv bdb) :
    DBInv (legacySessionCreatePhase env bdb sdb b).1 := by
  unfold legacySessionCreatePhase
  try dsimp only
  repeat' split
  all_goals try dsimp only
  all_goals first
    | exact hinv
    | exact dbInv_saveSession hinv _
    | (rename_i bdb2 hsave; exact dbInv_saveBooking (dbInv_saveSession hinv _) hsave)

theorem dbInv_updateBookingZoomPhase (env : BookingEnv) (bdb : List Booking)
    (sdb : List ZoomSession) (b : Booking) (req : UpdateBookingRequest)
    (originalPS : PaymentStatus) (hinv : DBInv bdb) :
    DBInv (updateBookingZoomPhase env bdb sdb b req originalPS).1 := by
  unfold updateBookingZoomPhase
  try dsimp only
  repeat' split
  all_goals try dsimp only
  all_goals first
    | exact hinv
    | exact dbInv_updateTimeslotPhase env bdb sdb _ req hinv
    | exact dbInv_legacySessionCreatePhase env bdb sdb b hinv
    | (rename_i bdb1 hsave; exact dbInv_updateTimeslotPhase env bdb1 sdb _ req
        (dbInv_saveBooking hinv hsave))

theorem dbInv_updateBooking (env : BookingEnv) (bdb : List Booking)
    (sdb : List ZoomSession) (id : Nat) (req : UpdateBookingRequest) (hinv : DBInv bdb) :
    DBInv (updateBooking env bdb sdb id req).2.1 := by
  unfold updateBooking
  try dsimp only
  repeat' split
  all_goals try dsimp only
  all_goals first
    | exact hinv
    | (rename_i bdb1 hsave; exact dbInv_updateBookingZoomPhase env bdb1 sdb _ req _
        (dbInv_saveBooking hinv hsave))

theorem atMostOne_upsert_of_not_found {sdb : List ZoomSession} {sess : ZoomSession}
    (hA : AtMostOneSessionPerBooking sdb)
    (hnone : ∀ x ∈ sdb, x.bookingId ≠ sess.bookingId) :
    AtMostOneSessionPerBooking (upsertSession sdb sess) := by
  intro x hx y hy hxy
  rcases mem_upsertSession hx with rfl | hx' <;> rcases mem_upsertSession hy with rfl | hy'
  · rfl
  · exact absurd hxy.symm (hnone y hy')
  · exact absurd hxy (hnone x hx')
  · exact hA x hx' y hy' hxy

theorem sha256_length (msg : List Nat) : (sha256 msg).length = 32 := by
  simp [sha256, bytesOfWord]

theorem hexBytes_length (l : List Nat) : (hexBytes l).length = 2 * l.length := by
  induction l with
  | nil => simp [hexBytes]
  | cons a t ih =>
    simp only [hexBytes, List.flatMap_cons] at *
    simp [ih]
    omega

theorem hmacSha256_length (key msg : List Nat) : (hmacSha256 key msg).length = 32 := by
  simp [hmacSha256, sha256_length]

theorem expectedSignature_length (secret timestamp payload : List Nat) :
    (expectedSignature secret timestamp payload).length = 67 := by
  simp [expectedSignature, hexBytes_length, hmacSha256_length]

theorem getAccessToken_ok_state {c : ZoomCredentials} {now : Int}
    {f : Except String TokenResponse} {st st₁ : TokenState} {tok : String} {n : Nat}
    (h : getAccessToken c now f st = ⟨Except.ok tok, st₁, n⟩) :
    st₁.accessToken = some tok ∧ strTruthy st₁.accessToken = true := by
  unfold getAccessToken at h
  split at h
  · rename_i hc
    simp only [Bool.and_eq_true] at hc
    simp only [GetTokenResult.mk.injEq, Except.ok.injEq] at h
    obtain ⟨htok, hst, -⟩ := h
    subst hst
    obtain ⟨h1, -⟩ := hc
    cases hopt : st.accessToken with
    | none => rw [hopt] at h1; simp [strTruthy] at h1
    | some s =>
      rw [hopt] at htok h1
      simp only [Option.getD_some] at htok
      subst htok
      exact ⟨rfl, h1⟩
  · split at h
    · simp at h
    · split at h
      · simp at h
      · split at h
        · rename_i r htr
          simp only [GetTokenResult.mk.injEq, Except.ok.injEq] at h
          obtain ⟨htok, hst, -⟩ := h
          subst hst
          dsimp only
          cases hopt : r.access_token with
          | none => rw [hopt] at htr; simp [strTruthy] at htr
          | some s =>
            rw [hopt] at htr htok
            simp only [Option.getD_some] at htok
            subst htok
            exact ⟨rfl, htr⟩
        · simp at h

/-! ## Claim theorems -/

/-- C1: link-gating invariant.  For every Booking write: a save whose
document has a non-empty `zoomLink` while `paymentStatus` is not `success`
is rejected with an error before the write (pre-save hook); a successful
save preserves the collection-wide invariant that any record with a
non-empty `zoomLink` has `paymentStatus = success`; the hook-bypassing
`findByIdAndUpdate` of the session post-save hook also preserves it; and
the full `createBooking` and `updateBooking` flows preserve it. -/
theorem c1_link_gating :
    (∀ (bdb : List Booking) (b : Booking),
       strTruthy b.zoomLink = true → b.paymentStatus ≠ PaymentStatus.success →
       saveBooking bdb b =
         Except.error "Cannot create Zoom link before successful payment.") ∧
    (∀ (bdb bdb' : List Booking) (b : Booking),
       saveBooking bdb b = Except.ok bdb' → DBInv bdb → DBInv bdb') ∧
    (∀ (bdb : List Booking) (bid : Nat) (u : Option String),
       DBInv bdb → DBInv (bookingCompletedUpdate bdb bid u)) ∧
    (∀ (env : BookingEnv) (bdb : List Booking) (sdb : List ZoomSession)
       (req : CreateBookingRequest),
       DBInv bdb → DBInv (createBooking env bdb sdb req).2.1) ∧
    (∀ (env : BookingEnv) (bdb : List Booking) (sdb : List ZoomSession) (id : Nat)
       (req : UpdateBookingRequest),
       DBInv bdb → DBInv (updateBooking env bdb sdb id req).2.1) :=
  ⟨fun _ _ hl hp => saveBooking_rejects hl hp,
   fun _ _ _ h hinv => dbInv_saveBooking hinv h,
   fun _ bid u hinv => dbInv_bookingCompletedUpdate hinv bid u,
   fun env bdb sdb req hinv => dbInv_createBooking env bdb sdb req hinv,
   fun env bdb sdb id req hinv => dbInv_updateBooking env bdb sdb id req hinv⟩

/-- C1 witness: the rejection and the create-flow preservation at concrete
inputs. -/
theorem c1_link_gating_witness :
    saveBooking []
        ⟨1, 10, 11, 12, 0, 0, 0, 0, PaymentStatus.pending, some "https://z/j/1", none,
         BookingStatus.scheduled⟩ =
      Except.error "Cannot create Zoom link before successful payment." ∧
    DBInv (createBooking ⟨[10, 11], [12], Except.error "down", Except.ok (), 1, 5⟩ [] []
        ⟨some 10, some 11, some 12, some 0, some (0, 1800000), some 50, none, none, none,
         none⟩).2.1 :=
  ⟨c1_link_gating.1 [] _ (by decide) (by decide),
   c1_link_gating.2.2.2.1 _ [] [] _ (by simp [DBInv])⟩

/-- C2: one-to-one session invariant.  The session-store create operation
(`createZoomSession`) answers 409 Conflict and writes nothing when a
session already exists for the requested `bookingId` (given a request that
passes the earlier validation steps), and it preserves the at-most-one-
session-per-booking invariant of the store. -/
theorem c2_session_one_to_one :
    (∀ (freshId : Nat) (bdb : List Booking) (sdb : List ZoomSession)
       (req : CreateSessionRequest) (bid : Nat) (startT : Int),
       req.bookingId = some bid → req.startTime = some startT →
       req.meetingId.isEmpty = false → req.joinUrl.isEmpty = false →
       bdb.any (fun b => b.id == bid) = true →
       (∀ e, req.endTime = some e → startT < e) →
       (∃ s ∈ sdb, s.bookingId = bid) →
       createZoomSession freshId bdb sdb req = (⟨409, false⟩, sdb, bdb)) ∧
    (∀ (freshId : Nat) (bdb : List Booking) (sdb : List ZoomSession)
       (req : CreateSessionRequest),
       AtMostOneSessionPerBooking sdb →
       AtMostOneSessionPerBooking (createZoomSession freshId bdb sdb req).2.1) := by
  constructor
  · intro freshId bdb sdb req bid startT hbid hstart hmid hjoin hb hend hdup
    unfold createZoomSession
    rw [hbid, hstart]
    dsimp only
    rw [hmid, hjoin, hb]
    simp only [Bool.or_self, Bool.not_true, if_false, Bool.false_eq_true]
    have hcond : (match req.endTime with
                  | some e => decide (e ≤ startT)
                  | none => false : Bool) = false := by
      cases he : req.endTime with
      | none => rfl
      | some e =>
        have h1 : startT < e := hend e he
        simp [decide_eq_false, not_le.mpr h1]
    rw [hcond]
    obtain ⟨s, hs, hsbid⟩ := hdup
    cases hf : findSessionByBookingId sdb bid with
    | none =>
      exfalso
      have := List.find?_eq_none.mp hf s hs
      simp [hsbid] at this
    | some s' => simp
  · intro freshId bdb sdb req hA
    unfold createZoomSession
    repeat' split
    all_goals try dsimp only
    all_goals try exact hA
    rename_i hf
    dsimp only [saveSession]
    apply atMostOne_upsert_of_not_found hA
    intro x hx
    have := List.find?_eq_none.mp hf x hx
    simpa using this

/-- C2 witness: a duplicate create answers 409 and leaves the store
unchanged; the invariant is preserved at a concrete store. -/
theorem c2_session_one_to_one_witness :
    createZoomSession 9
        [⟨1, 10, 11, 12, 0, 0, 1800000, 50, PaymentStatus.pending, none, none,
          BookingStatus.scheduled⟩]
        [⟨5, 1, "m1", "https://j", 0, none, none, ZoomSessionStatus.scheduled⟩]
        ⟨some 1, "m2", "https://j2", some 0, none, none, none⟩ =
      (⟨409, false⟩,
       [⟨5, 1, "m1", "https://j", 0, none, none, ZoomSessionStatus.scheduled⟩],
       [⟨1, 10, 11, 12, 0, 0, 1800000, 50, PaymentStatus.pending, none, none,
         BookingStatus.scheduled⟩]) :=
  c2_session_one_to_one.1 9 _ _ _ 1 0 (by decide) (by decide) (by decide) (by decide)
    (by decide) (by intro e he; cases he)
    ⟨⟨5, 1, "m1", "https://j", 0, none, none, ZoomSessionStatus.scheduled⟩, by decide, by decide⟩

/-- C3 counterexample: a `meeting.started` webhook for a completed session
resets its status to `ongoing`, so `completed` is not terminal under every
webhook event. -/
theorem c3_counterexample :
    (handleMeetingStarted
        [⟨5, 1, "m1", "https://j", 0, none, some "https://rec", ZoomSessionStatus.completed⟩]
        [⟨1, 10, 11, 12, 0, 0, 0, 0, PaymentStatus.pending, none, some "https://rec",
          BookingStatus.completed⟩]
        (some "m1")).1 =
      [⟨5, 1, "m1", "https://j", 0, none, some "https://rec", ZoomSessionStatus.ongoing⟩] ∧
    ZoomSessionStatus.ongoing ≠ ZoomSessionStatus.completed := by decide

/-- C3 (amended): re-processing `recording.completed` for a completed
session, when the derived url is the stored one or absent, leaves the
session store and the booking store unchanged; but `completed` is not
terminal under the other events: `meeting.started` rewrites the session
with status `ongoing`, and `meeting.ended` rewrites its `endTime` with
the current time. -/
theorem c3_completed_terminal_amended :
    (∀ (sdb : List ZoomSession) (bdb : List Booking) (mid : String) (s : ZoomSession)
       (api : Except String (Option (List RecordingFile))) (wf : Option (List RecordingFile)),
       SessionIdsUnique sdb →
       findSessionByMeetingId sdb mid = some s →
       s.status = ZoomSessionStatus.completed →
       (strTruthy (selectRecordingUrl api wf) = true →
         selectRecordingUrl api wf = s.recordingUrl) →
       (∀ b ∈ bdb, b.id = s.bookingId → b.bookingStatus = BookingStatus.completed ∧
         (∀ r, s.recordingUrl = some r → b.zoomRecordingLink = some r)) →
       handleRecordingCompleted sdb bdb (some mid) api wf = (sdb, bdb)) ∧
    (∀ (sdb : List ZoomSession) (bdb : List Booking) (mid : String) (s : ZoomSession),
       findSessionByMeetingId sdb mid = some s →
       handleMeetingStarted sdb bdb (some mid) =
         (upsertSession sdb { s with status := ZoomSessionStatus.ongoing }, bdb)) ∧
    (∀ (sdb : List ZoomSession) (bdb : List Booking) (mid : String) (s : ZoomSession)
       (now : Int),
       findSessionByMeetingId sdb mid = some s →
       (handleMeetingEnded sdb bdb (some mid) now).1 =
         upsertSession sdb { s with endTime := some now }) := by
  refine ⟨?_, ?_, ?_⟩
  · intro sdb bdb mid s api wf huniq hfind hst hsame hprop
    have hmem : s ∈ sdb := List.mem_of_find?_eq_some hfind
    unfold handleRecordingCompleted
    dsimp only
    rw [hfind]
    dsimp only
    by_cases hurl : strTruthy (selectRecordingUrl api wf) = true
    · have hru : selectRecordingUrl api wf = s.recordingUrl := hsame hurl
      have hsess : ({ s with
          recordingUrl := selectRecordingUrl api wf
          status := ZoomSessionStatus.completed } : ZoomSession) = s := by
        rw [hru, ← hst]
      rw [if_pos hurl, hsess]
      unfold saveSession
      dsimp only
      rw [hst]
      simp only [beq_self_eq_true, if_true]
      rw [upsertSession_self huniq hmem, bookingCompletedUpdate_self hprop]
    · have hsess : ({ s with status := ZoomSessionStatus.completed } : ZoomSession) = s := by
        rw [← hst]
      rw [if_neg hurl, hsess]
      unfold saveSession
      dsimp only
      rw [hst]
      simp only [beq_self_eq_true, if_true]
      rw [upsertSession_self huniq hmem, bookingCompletedUpdate_self hprop]
  · intro sdb bdb mid s hfind
    unfold handleMeetingStarted
    dsimp only
    rw [hfind]
    unfold saveSession
    simp
  · intro sdb bdb mid s now hfind
    unfold handleMeetingEnded
    dsimp only
    rw [hfind]
    unfold saveSession
    dsimp only

/-- C3 witness: the idempotent re-completion and the `meeting.started`
reset at concrete stores. -/
theorem c3_completed_terminal_amended_witness :
    handleRecordingCompleted
        [⟨5, 1, "m1", "https://j", 0, none, some "https://rec", ZoomSessionStatus.completed⟩]
        [⟨1, 10, 11, 12, 0, 0, 0, 0, PaymentStatus.pending, none, some "https://rec",
          BookingStatus.completed⟩]
        (some "m1") (Except.ok (some [⟨"MP4", some "https://rec", none⟩])) none =
      ([⟨5, 1, "m1", "https://j", 0, none, some "https://rec", ZoomSessionStatus.completed⟩],
       [⟨1, 10, 11, 12, 0, 0, 0, 0, PaymentStatus.pending, none, some "https://rec",
         BookingStatus.completed⟩]) :=
  c3_completed_terminal_amended.1 _ _ "m1"
    ⟨5, 1, "m1", "https://j", 0, none, some "https://rec", ZoomSessionStatus.completed⟩
    _ _
    (by intro x hx y hy h; simp at hx hy; rw [hx, hy])
    (by decide) (by decide) (by decide)
    (by
      intro b hb hid
      simp at hb
      subst hb
      refine ⟨rfl, ?_⟩
      intro r hr
      simp at hr
      subst hr
      rfl)

/-- C4 counterexample: a completed-session save whose session has no
`recordingUrl` does not set the owning booking's `zoomRecordingLink` to
that (absent) value — mongoose drops `undefined` update keys, so a
previously stored link survives. -/
theorem c4_counterexample :
    (saveSession []
        [⟨1, 10, 11, 12, 0, 0, 0, 0, PaymentStatus.pending, none, some "old",
          BookingStatus.scheduled⟩]
        ⟨5, 1, "m1", "https://j", 0, none, none, ZoomSessionStatus.completed⟩).2 =
      [⟨1, 10, 11, 12, 0, 0, 0, 0, PaymentStatus.pending, none, some "old",
        BookingStatus.completed⟩] ∧
    (⟨5, 1, "m1", "https://j", 0, none, none, ZoomSessionStatus.completed⟩ :
      ZoomSession).recordingUrl = none ∧
    (some "old" : Option String) ≠ none := by decide

/-- C4 (amended): every session save with status `completed` updates, within
that same write, the owning booking to `bookingStatus = completed`, and sets
its `zoomRecordingLink` to the session's `recordingUrl` whenever that url is
present (an absent url leaves the stored link unchanged). -/
theorem c4_derived_propagation_amended :
    ∀ (sdb : List ZoomSession) (bdb : List Booking) (s : ZoomSession),
      s.status = ZoomSessionStatus.completed →
      (saveSession sdb bdb s).2 = bookingCompletedUpdate bdb s.bookingId s.recordingUrl ∧
      ∀ b ∈ bdb, b.id = s.bookingId →
        ({ b with
           bookingStatus := BookingStatus.completed
           zoomRecordingLink := match s.recordingUrl with
             | some r => some r
             | none => b.zoomRecordingLink } : Booking) ∈ (saveSession sdb bdb s).2 := by
  intro sdb bdb s hst
  constructor
  · unfold saveSession
    dsimp only
    rw [hst]
    simp
  · intro b hb hid
    unfold saveSession
    dsimp only
    rw [hst]
    simp only [beq_self_eq_true, if_true]
    unfold bookingCompletedUpdate
    refine List.mem_map.mpr ⟨b, hb, ?_⟩
    have hbeq : (b.id == s.bookingId) = true := by simp [hid]
    simp [hbeq]

/-- C4 witness: the propagation at a concrete store where the session has a
recording url. -/
theorem c4_derived_propagation_amended_witness :
    (saveSession []
        [⟨1, 10, 11, 12, 0, 0, 0, 0, PaymentStatus.pending, none, none,
          BookingStatus.scheduled⟩]
        ⟨5, 1, "m1", "https://j", 0, none, some "https://rec",
         ZoomSessionStatus.completed⟩).2 =
      bookingCompletedUpdate
        [⟨1, 10, 11, 12, 0, 0, 0, 0, PaymentStatus.pending, none, none,
          BookingStatus.scheduled⟩] 1 (some "https://rec") :=
  (c4_derived_propagation_amended [] _ _ (by decide)).1

set_option maxRecDepth 400000 in
/-- C5 counterexample: a request whose provided signature differs from the
expected one (here: wrong byte length) is answered 200 with success:false,
not 401 — so "whenever they differ the request is rejected with 401" fails
as stated. -/
theorem c5_counterexample :
    (handleWebhookEvent [109, 121, 115, 101, 99, 114, 101, 116] (some [120])
        (some [49, 55, 48, 48, 48, 48, 48, 48, 48, 48])
        [123, 34, 101, 118, 101, 110, 116, 34, 58, 34, 109, 101, 101, 116, 105, 110, 103,
         46, 115, 116, 97, 114, 116, 101, 100, 34, 125]
        "meeting.started" none none none ⟨0, Except.error "e"⟩ [] []).1 = ⟨200, false⟩ ∧
    [120] ≠ expectedSignature [109, 121, 115, 101, 99, 114, 101, 116]
        [49, 55, 48, 48, 48, 48, 48, 48, 48, 48]
        [123, 34, 101, 118, 101, 110, 116, 34, 58, 34, 109, 101, 101, 116, 105, 110, 103,
         46, 115, 116, 97, 114, 116, 101, 100, 34, 125] := by decide

set_option maxRecDepth 400000 in
/-- C5 (amended): the expected signature is `v0=` + hex HMAC-SHA256 of
`v0:timestamp:payload`, deterministic in (secret, timestamp, payload) — at
the reference input it equals the independently computed reference value
and a single-byte change of the payload changes it; when both headers are
present and the secret is configured, a provided signature of the expected
byte length that differs is rejected with 401 before any store write (a
length mismatch instead throws and is answered 200); with no configured
secret, verification is skipped and the event is processed exactly as an
unsigned request. -/
theorem c5_signature_verification_amended :
    expectedSignature [109, 121, 115, 101, 99, 114, 101, 116]
        [49, 55, 48, 48, 48, 48, 48, 48, 48, 48]
        [123, 34, 101, 118, 101, 110, 116, 34, 58, 34, 109, 101, 101, 116, 105, 110, 103,
         46, 115, 116, 97, 114, 116, 101, 100, 34, 125] =
      [118, 48, 61, 48, 99, 101, 98, 48, 54, 54, 51, 101, 55, 54, 55, 51, 100, 97, 50, 57,
       100, 99, 49, 56, 55, 102, 51, 101, 99, 101, 57, 53, 51, 52, 102, 55, 52, 50, 48,
       102, 49, 55, 99, 52, 49, 100, 99, 53, 98, 98, 51, 51, 102, 57, 56, 52, 49, 49, 100,
       50, 98, 56, 54, 49, 52, 53, 101] ∧
    expectedSignature [109, 121, 115, 101, 99, 114, 101, 116]
        [49, 55, 48, 48, 48, 48, 48, 48, 48, 48]
        [122, 34, 101, 118, 101, 110, 116, 34, 58, 34, 109, 101, 101, 116, 105, 110, 103,
         46, 115, 116, 97, 114, 116, 101, 100, 34, 125] ≠
      [118, 48, 61, 48, 99, 101, 98, 48, 54, 54, 51, 101, 55, 54, 55, 51, 100, 97, 50, 57,
       100, 99, 49, 56, 55, 102, 51, 101, 99, 101, 57, 53, 51, 52, 102, 55, 52, 50, 48,
       102, 49, 55, 99, 52, 49, 100, 99, 53, 98, 98, 51, 51, 102, 57, 56, 52, 49, 49, 100,
       50, 98, 56, 54, 49, 52, 53, 101] ∧
    (∀ (secret sig ts body : List Nat) (event : String) (pt : Option String)
       (pmid : Option String) (wf : Option (List RecordingFile)) (env : WebhookEnv)
       (sdb : List ZoomSession) (bdb : List Booking),
       secret ≠ [] → (event == "endpoint.url_validation") = false →
       sig ≠ [] → ts ≠ [] →
       sig.length = (expectedSignature secret ts body).length →
       sig ≠ expectedSignature secret ts body →
       handleWebhookEvent secret (some sig) (some ts) body event pt pmid wf env sdb bdb =
         (⟨401, false⟩, sdb, bdb)) ∧
    (∀ (sig ts body : List Nat) (event : String) (pt : Option String)
       (pmid : Option String) (wf : Option (List RecordingFile)) (env : WebhookEnv)
       (sdb : List ZoomSession) (bdb : List Booking),
       (event == "endpoint.url_validation") = false →
       handleWebhookEvent [] (some sig) (some ts) body event pt pmid wf env sdb bdb =
         handleWebhookEvent [] none none body event pt pmid wf env sdb bdb) := by
  refine ⟨by decide, by decide, ?_, ?_⟩
  · intro secret sig ts body event pt pmid wf env sdb bdb hsecret hev hsig hts hlen hneq
    unfold handleWebhookEvent
    simp only [hev, Bool.false_eq_true, if_false]
    have h1 : bytesTruthy (some sig) = true := by
      simp [bytesTruthy, List.isEmpty_iff, hsig]
    have h2 : bytesTruthy (some ts) = true := by
      simp [bytesTruthy, List.isEmpty_iff, hts]
    rw [h1, h2]
    simp only [Bool.and_self, if_true]
    dsimp only [Option.getD_some]
    unfold verifyWebhookSignature
    have hse : secret.isEmpty = false := by simp [List.isEmpty_iff, hsecret]
    rw [hse]
    simp only [Bool.false_eq_true, if_false]
    unfold expectedSignature at hlen hneq
    rw [if_pos hlen]
    split
    · rename_i a heq
      simp at heq
    · rfl
    · rename_i heq
      simp only [Except.ok.injEq] at heq
      exact absurd (of_decide_eq_true heq) hneq
  · intro sig ts body event pt pmid wf env sdb bdb hev
    unfold handleWebhookEvent
    simp only [hev, Bool.false_eq_true, if_false]
    unfold verifyWebhookSignature
    simp [bytesTruthy]

set_option maxRecDepth 400000 in
/-- C5 witness: an equal-length signature differing in one hex digit is
rejected with 401 at the reference input. -/
theorem c5_signature_verification_amended_witness :
    handleWebhookEvent [109, 121, 115, 101, 99, 114, 101, 116]
        (some [118, 48, 61, 49, 99, 101, 98, 48, 54, 54, 51, 101, 55, 54, 55, 51, 100, 97,
               50, 57, 100, 99, 49, 56, 55, 102, 51, 101, 99, 101, 57, 53, 51, 52, 102, 55,
               52, 50, 48, 102, 49, 55, 99, 52, 49, 100, 99, 53, 98, 98, 51, 51, 102, 57,
               56, 52, 49, 49, 100, 50, 98, 56, 54, 49, 52, 53, 101])
        (some [49, 55, 48, 48, 48, 48, 48, 48, 48, 48])
        [123, 34, 101, 118, 101, 110, 116, 34, 58, 34, 109, 101, 101, 116, 105, 110, 103,
         46, 115, 116, 97, 114, 116, 101, 100, 34, 125]
        "meeting.started" none none none ⟨0, Except.error "e"⟩ [] [] =
      (⟨401, false⟩, [], []) :=
  c5_signature_verification_amended.2.2.1 _ _ _ _ "meeting.started" none none none
    ⟨0, Except.error "e"⟩ [] [] (by decide) (by decide) (by decide) (by decide)
    (by decide) (by decide)

theorem strIsEmpty_false_of_ne {s : String} (h : s ≠ "") : s.isEmpty = false := by
  rw [String.isEmpty]
  cases s with
  | mk data =>
    cases data with
    | nil => exact absurd rfl h
    | cons a t =>
      simp only [String.endPos, String.utf8ByteSize, beq_eq_false_iff_ne, ne_eq,
        String.Pos.ext_iff]
      have := Char.utf8Size_pos a
      simp
      omega

/-- C6: access-token cache.  After any successful `getAccessToken` call, a
second call while `now < tokenExpiry` returns the identical cached token,
leaves the cache untouched, and issues no token-exchange request; a call at
or after expiry (with credentials configured and a successful exchange)
issues exactly one request and caches expiry
`now + (expires_in - 60) seconds`. -/
theorem c6_token_cache :
    (∀ (c : ZoomCredentials) (now₁ now₂ : Int) (f₁ f₂ : Except String TokenResponse)
       (st st₁ : TokenState) (tok : String) (n₁ : Nat),
       getAccessToken c now₁ f₁ st = ⟨Except.ok tok, st₁, n₁⟩ →
       now₂ < st₁.tokenExpiry →
       getAccessToken c now₂ f₂ st₁ = ⟨Except.ok tok, st₁, 0⟩) ∧
    (∀ (c : ZoomCredentials) (now : Int) (f : Except String TokenResponse)
       (st : TokenState) (r : TokenResponse) (tok : String),
       st.tokenExpiry ≤ now → credsMissing c = false →
       f = Except.ok r → r.access_token = some tok → tok ≠ "" →
       getAccessToken c now f st =
         ⟨Except.ok tok, ⟨some tok, now + (r.expires_in - 60) * 1000⟩, 1⟩) := by
  constructor
  · intro c now₁ now₂ f₁ f₂ st st₁ tok n₁ h hlt
    obtain ⟨hopt, htr⟩ := getAccessToken_ok_state h
    unfold getAccessToken
    have hcond : (strTruthy st₁.accessToken && decide (now₂ < st₁.tokenExpiry)) = true := by
      simp [htr, hlt]
    rw [if_pos hcond, hopt]
    rfl
  · intro c now f st r tok hexp hcreds hf htok htokne
    unfold getAccessToken
    have hnl : ¬(now < st.tokenExpiry) := not_lt.mpr hexp
    have hie : tok.isEmpty = false := strIsEmpty_false_of_ne htokne
    rw [hf]
    simp [hnl, hcreds, htok, strTruthy, hie]

/-- C6 witness: a cache hit before expiry returns the cached token with no
request; a call at expiry refreshes once with the 60-second margin. -/
theorem c6_token_cache_witness :
    getAccessToken ⟨some "acc", some "cid", some "sec"⟩ 5000 (Except.error "x")
        ⟨some "tok1", 3600000⟩ = ⟨Except.ok "tok1", ⟨some "tok1", 3600000⟩, 0⟩ ∧
    getAccessToken ⟨some "acc", some "cid", some "sec"⟩ 3600000
        (Except.ok ⟨some "tok2", 3600⟩) ⟨some "tok1", 3600000⟩ =
      ⟨Except.ok "tok2", ⟨some "tok2", 3600000 + (3600 - 60) * 1000⟩, 1⟩ :=
  ⟨c6_token_cache.1 ⟨some "acc", some "cid", some "sec"⟩ 0 5000
      (Except.error "y") (Except.error "x") ⟨some "tok1", 3600000⟩
      ⟨some "tok1", 3600000⟩ "tok1" 0 (by decide) (by decide),
   c6_token_cache.2 ⟨some "acc", some "cid", some "sec"⟩ 3600000 _ _ ⟨some "tok2", 3600⟩
      "tok2" (by decide) (by decide) rfl rfl (by decide)⟩

/-- C7: retry-on-401.  A 401 on the first authenticated call (issued with a
warm cache) clears the cached token, re-acquires a credential exactly once,
retries the call exactly once (two meeting-API calls in total), and
surfaces the retried call's outcome as is — its failure carries the
upstream status and message, with no further retry; a non-401 failure is
surfaced as the wrapped `Zoom API error` carrying the upstream message,
with no retry at all. -/
theorem c7_retry_on_401 :
    (∀ (α : Type) (c : ZoomCredentials) (now : Int)
       (f₁ f₂ : Except String TokenResponse) (retry : HttpOutcome α) (msg : String)
       (st : TokenState) (r : TokenResponse) (tok : String),
       strTruthy st.accessToken = true → now < st.tokenExpiry →
       credsMissing c = false → f₂ = Except.ok r → r.access_token = some tok → tok ≠ "" →
       makeAuthenticatedRequest c now f₁ f₂ (HttpOutcome.err (some 401) msg) retry st =
         ⟨(match retry with
           | HttpOutcome.ok d => Except.ok d
           | HttpOutcome.err s2 m2 => Except.error (ZoomRequestError.httpError s2 m2)),
          ⟨some tok, now + (r.expires_in - 60) * 1000⟩, 1, 2⟩) ∧
    (∀ (α : Type) (c : ZoomCredentials) (now : Int)
       (f₁ f₂ : Except String TokenResponse) (retry : HttpOutcome α)
       (s : Option Nat) (msg : String) (st st₁ : TokenState) (tk : String) (n₁ : Nat),
       s ≠ some 401 →
       getAccessToken c now f₁ st = ⟨Except.ok tk, st₁, n₁⟩ →
       makeAuthenticatedRequest c now f₁ f₂ (HttpOutcome.err s msg) retry st =
         ⟨Except.error (ZoomRequestError.apiError ("Zoom API error: " ++ msg)),
          st₁, n₁, 1⟩) := by
  constructor
  · intro α c now f₁ f₂ retry msg st r tok hcache hlt hcreds hf htok htokne
    have hg1 : getAccessToken c now f₁ st =
        ⟨Except.ok (st.accessToken.getD ""), st, 0⟩ := by
      unfold getAccessToken
      have hcond : (strTruthy st.accessToken && decide (now < st.tokenExpiry)) = true := by
        simp [hcache, hlt]
      simp [hcond]
    have hie : tok.isEmpty = false := strIsEmpty_false_of_ne htokne
    have hg2 : getAccessToken c now f₂ ⟨none, st.tokenExpiry⟩ =
        ⟨Except.ok tok, ⟨some tok, now + (r.expires_in - 60) * 1000⟩, 1⟩ := by
      unfold getAccessToken
      rw [hf]
      simp [strTruthy, hcreds, htok, hie]
    unfold makeAuthenticatedRequest
    rw [hg1]
    dsimp only
    rw [hg2]
    dsimp only
    cases retry <;> rfl
  · intro α c now f₁ f₂ retry s msg st st₁ tk n₁ hs hga
    unfold makeAuthenticatedRequest
    rw [hga]
    dsimp only
    have : (s == some 401) = false := by
      cases hd : s == some 401
      · rfl
      · exact absurd (eq_of_beq hd) hs
    rw [this]
    simp

/-- C7 witness: both retry branches at concrete inputs. -/
theorem c7_retry_on_401_witness :
    makeAuthenticatedRequest ⟨some "acc", some "cid", some "sec"⟩ 0
        (Except.error "unused") (Except.ok ⟨some "tok2", 3600⟩)
        (HttpOutcome.err (some 401) "expired") (HttpOutcome.ok "data")
        ⟨some "tok1", 1000⟩ =
      ⟨Except.ok "data", ⟨some "tok2", 0 + (3600 - 60) * 1000⟩, 1, 2⟩ ∧
    makeAuthenticatedRequest ⟨some "acc", some "cid", some "sec"⟩ 0
        (Except.error "unused") (Except.error "unused2")
        (HttpOutcome.err (some 404) "missing") (HttpOutcome.ok "data")
        ⟨some "tok1", 1000⟩ =
      ⟨Except.error (ZoomRequestError.apiError "Zoom API error: missing"),
       ⟨some "tok1", 1000⟩, 0, 1⟩ :=
  ⟨c7_retry_on_401.1 String ⟨some "acc", some "cid", some "sec"⟩ 0 _ _
      (HttpOutcome.ok "data") "expired" ⟨some "tok1", 1000⟩ ⟨some "tok2", 3600⟩ "tok2"
      (by decide) (by decide) (by decide) rfl rfl (by decide),
   c7_retry_on_401.2 String ⟨some "acc", some "cid", some "sec"⟩ 0 _ _
      (HttpOutcome.ok "data") (some 404) "missing" ⟨some "tok1", 1000⟩
      ⟨some "tok1", 1000⟩ "tok1" 0 (by decide) (by decide)⟩

/-- C8: graceful degradation of meeting scheduling.  For a valid creation
request (entities exist, amount non-negative, no link supplied), if the
duration `round((end - start) / 60000)` is below one minute or the
provider meeting-creation call fails, the booking is persisted anyway, no
session is created, and the response still reports 201 success. -/
theorem c8_graceful_degradation :
    ∀ (env : BookingEnv) (bdb : List Booking) (sdb : List ZoomSession)
      (uid aid sid : Nat) (date : Int) (ts : Int × Int) (amount : Int)
      (ps : Option PaymentStatus) (recLink : Option String) (bs : Option BookingStatus),
      env.users.contains uid = true → env.users.contains aid = true →
      env.services.contains sid = true → ¬(amount < 0) →
      (jsRound (ts.2 - ts.1) 60000 < 1 ∨ ∃ e, env.createMeetingResult = Except.error e) →
      createBooking env bdb sdb
          ⟨some uid, some aid, some sid, some date, some ts, some amount, ps, none,
           recLink, bs⟩ =
        (⟨201, true⟩,
         upsertBooking bdb
           ⟨env.freshBookingId, uid, aid, sid, date, ts.1, ts.2, amount,
            ps.getD PaymentStatus.pending, none, recLink, bs.getD BookingStatus.scheduled⟩,
         sdb) := by
  intro env bdb sdb uid aid sid date ts amount ps recLink bs hu ha hs hamt hfail
  unfold createBooking
  dsimp only
  rw [hu, ha, hs]
  simp only [Bool.not_true, Bool.false_eq_true, if_false]
  rw [if_neg hamt]
  simp only [strTruthy, Bool.false_and, Bool.false_eq_true, if_false]
  have hsb : saveBooking bdb
      ⟨env.freshBookingId, uid, aid, sid, date, ts.1, ts.2, amount,
       ps.getD PaymentStatus.pending, none, recLink, bs.getD BookingStatus.scheduled⟩ =
      Except.ok (upsertBooking bdb
        ⟨env.freshBookingId, uid, aid, sid, date, ts.1, ts.2, amount,
         ps.getD PaymentStatus.pending, none, recLink, bs.getD BookingStatus.scheduled⟩) := by
    unfold saveBooking
    simp [strTruthy]
  rw [hsb]
  dsimp only
  have hzp : createBookingZoomPhase env
      (upsertBooking bdb
        ⟨env.freshBookingId, uid, aid, sid, date, ts.1, ts.2, amount,
         ps.getD PaymentStatus.pending, none, recLink, bs.getD BookingStatus.scheduled⟩)
      sdb
      ⟨env.freshBookingId, uid, aid, sid, date, ts.1, ts.2, amount,
       ps.getD PaymentStatus.pending, none, recLink, bs.getD BookingStatus.scheduled⟩
      (ps.getD PaymentStatus.pending) ts =
      (upsertBooking bdb
        ⟨env.freshBookingId, uid, aid, sid, date, ts.1, ts.2, amount,
         ps.getD PaymentStatus.pending, none, recLink, bs.getD BookingStatus.scheduled⟩,
       sdb) := by
    unfold createBookingZoomPhase
    dsimp only
    rcases hfail with hd | ⟨e, he⟩
    · rw [if_pos hd]
    · by_cases hd : jsRound (ts.2 - ts.1) 60000 < 1
      · rw [if_pos hd]
      · rw [if_neg hd, he]
  rw [hzp]

/-- C8 witness: a 20-second timeslot (duration rounds to 0) still creates
the booking with a 201 response and no session. -/
theorem c8_graceful_degradation_witness :
    createBooking ⟨[10, 11], [12], Except.ok ⟨"77", "https://j"⟩, Except.ok (), 1, 5⟩ [] []
        ⟨some 10, some 11, some 12, some 0, some (0, 20000), some 50, none, none, none,
         none⟩ =
      (⟨201, true⟩,
       upsertBooking []
         ⟨1, 10, 11, 12, 0, 0, 20000, 50, PaymentStatus.pending, none, none,
          BookingStatus.scheduled⟩,
       []) :=
  c8_graceful_degradation ⟨[10, 11], [12], Except.ok ⟨"77", "https://j"⟩, Except.ok (), 1, 5⟩
    [] [] 10 11 12 0 (0, 20000) 50 none none none
    (by decide) (by decide) (by decide) (by decide) (Or.inl (by decide))

/-- C9: the recording-link field is not payment-gated.  `createBooking`
persists a caller-supplied `zoomRecordingLink` with no payment check (so a
booking can hold a non-empty recording link while `paymentStatus` is
`pending`), and `updateBooking` sets any supplied non-empty
`zoomRecordingLink` unconditionally, whatever the payment status. -/
theorem c9_recording_link_not_gated :
    (∀ (env : BookingEnv) (bdb : List Booking) (sdb : List ZoomSession)
       (uid aid sid : Nat) (date : Int) (ts : Int × Int) (amount : Int) (r : String),
       env.users.contains uid = true → env.users.contains aid = true →
       env.services.contains sid = true → ¬(amount < 0) →
       (createBooking env bdb sdb
           ⟨some uid, some aid, some sid, some date, some ts, some amount, none, none,
            some r, none⟩).1 = ⟨201, true⟩ ∧
       (createBooking env bdb sdb
           ⟨some uid, some aid, some sid, some date, some ts, some amount, none, none,
            some r, none⟩).2.1 =
         upsertBooking bdb
           ⟨env.freshBookingId, uid, aid, sid, date, ts.1, ts.2, amount,
            PaymentStatus.pending, none, some r, BookingStatus.scheduled⟩ ∧
       (⟨env.freshBookingId, uid, aid, sid, date, ts.1, ts.2, amount,
         PaymentStatus.pending, none, some r, BookingStatus.scheduled⟩ : Booking) ∈
         (createBooking env bdb sdb
           ⟨some uid, some aid, some sid, some date, some ts, some amount, none, none,
            some r, none⟩).2.1) ∧
    (∀ (env : BookingEnv) (bdb : List Booking) (sdb : List ZoomSession) (id : Nat)
       (b0 : Booking) (r : String),
       findBookingById bdb id = some b0 →
       (strTruthy b0.zoomLink = true → b0.paymentStatus = PaymentStatus.success) →
       updateBooking env bdb sdb id
           { emptyUpdateRequest with zoomRecordingLink := JsField.set r } =
         (⟨200, true⟩, upsertBooking bdb { b0 with zoomRecordingLink := some r }, sdb)) := by
  constructor
  · intro env bdb sdb uid aid sid date ts amount r hu ha hs hamt
    have heq : createBooking env bdb sdb
        ⟨some uid, some aid, some sid, some date, some ts, some amount, none, none,
         some r, none⟩ =
        (⟨201, true⟩,
         (createBookingZoomPhase env
           (upsertBooking bdb
             ⟨env.freshBookingId, uid, aid, sid, date, ts.1, ts.2, amount,
              PaymentStatus.pending, none, some r, BookingStatus.scheduled⟩)
           sdb
           ⟨env.freshBookingId, uid, aid, sid, date, ts.1, ts.2, amount,
            PaymentStatus.pending, none, some r, BookingStatus.scheduled⟩
           PaymentStatus.pending ts).1,
         (createBookingZoomPhase env
           (upsertBooking bdb
             ⟨env.freshBookingId, uid, aid, sid, date, ts.1, ts.2, amount,
              PaymentStatus.pending, none, some r, BookingStatus.scheduled⟩)
           sdb
           ⟨env.freshBookingId, uid, aid, sid, date, ts.1, ts.2, amount,
            PaymentStatus.pending, none, some r, BookingStatus.scheduled⟩
           PaymentStatus.pending ts).2) := by
      unfold createBooking
      dsimp only
      rw [hu, ha, hs]
      simp only [Bool.not_true, Bool.false_eq_true, if_false]
      rw [if_neg hamt]
      simp only [strTruthy, Bool.false_and, Bool.false_eq_true, if_false, Option.getD_none]
      have hsb : saveBooking bdb
          ⟨env.freshBookingId, uid, aid, sid, date, ts.1, ts.2, amount,
           PaymentStatus.pending, none, some r, BookingStatus.scheduled⟩ =
          Except.ok (upsertBooking bdb
            ⟨env.freshBookingId, uid, aid, sid, date, ts.1, ts.2, amount,
             PaymentStatus.pending, none, some r, BookingStatus.scheduled⟩) := by
        unfold saveBooking
        simp [strTruthy]
      rw [hsb]
    have hzp1 : ∀ bdb1 : List Booking,
        (createBookingZoomPhase env bdb1 sdb
          ⟨env.freshBookingId, uid, aid, sid, date, ts.1, ts.2, amount,
           PaymentStatus.pending, none, some r, BookingStatus.scheduled⟩
          PaymentStatus.pending ts).1 = bdb1 := by
      intro bdb1
      unfold createBookingZoomPhase
      dsimp only
      repeat' split
      all_goals first
        | (simp [saveSession]; done)
        | simp_all
    rw [heq]
    refine ⟨rfl, hzp1 _, ?_⟩
    rw [hzp1 _]
    exact self_mem_upsertBooking _ _
  · intro env bdb sdb id b0 r hfind hgate
    unfold updateBooking
    rw [hfind]
    dsimp only
    have happ : applyUpdateFields env b0
        { emptyUpdateRequest with zoomRecordingLink := JsField.set r } =
        Except.ok { b0 with zoomRecordingLink := some r } := by
      unfold applyUpdateFields emptyUpdateRequest
      rfl
    rw [happ]
    dsimp only
    have hsb : saveBooking bdb { b0 with zoomRecordingLink := some r } =
        Except.ok (upsertBooking bdb { b0 with zoomRecordingLink := some r }) := by
      unfold saveBooking
      by_cases hz : strTruthy b0.zoomLink = true
      · have hps := hgate hz
        simp [hz, hps]
      · have hz' : strTruthy b0.zoomLink = false := by simpa using hz
        simp [hz']
    rw [hsb]
    dsimp only
    have hzp : updateBookingZoomPhase env
        (upsertBooking bdb { b0 with zoomRecordingLink := some r }) sdb
        { b0 with zoomRecordingLink := some r }
        { emptyUpdateRequest with zoomRecordingLink := JsField.set r }
        b0.paymentStatus =
        (upsertBooking bdb { b0 with zoomRecordingLink := some r }, sdb) := by
      unfold updateBookingZoomPhase updateTimeslotPhase emptyUpdateRequest
      dsimp only
      split
      · rfl
      · rfl
    rw [hzp]

/-- C9 witness: a pending-payment creation persisting a recording link, and
an update setting it on a pending-payment booking. -/
theorem c9_recording_link_not_gated_witness :
    ((createBooking ⟨[10, 11], [12], Except.error "down", Except.ok (), 1, 5⟩ [] []
        ⟨some 10, some 11, some 12, some 0, some (0, 1800000), some 50, none, none,
         some "https://rec", none⟩).1 = ⟨201, true⟩ ∧
     (createBooking ⟨[10, 11], [12], Except.error "down", Except.ok (), 1, 5⟩ [] []
        ⟨some 10, some 11, some 12, some 0, some (0, 1800000), some 50, none, none,
         some "https://rec", none⟩).2.1 =
       upsertBooking []
         ⟨1, 10, 11, 12, 0, 0, 1800000, 50, PaymentStatus.pending, none,
          some "https://rec", BookingStatus.scheduled⟩ ∧
     (⟨1, 10, 11, 12, 0, 0, 1800000, 50, PaymentStatus.pending, none,
       some "https://rec", BookingStatus.scheduled⟩ : Booking) ∈
       (createBooking ⟨[10, 11], [12], Except.error "down", Except.ok (), 1, 5⟩ [] []
          ⟨some 10, some 11, some 12, some 0, some (0, 1800000), some 50, none, none,
           some "https://rec", none⟩).2.1) ∧
    updateBooking ⟨[10, 11], [12], Except.error "down", Except.ok (), 1, 5⟩
        [⟨7, 10, 11, 12, 0, 0, 1800000, 50, PaymentStatus.pending, none, none,
          BookingStatus.scheduled⟩] [] 7
        { emptyUpdateRequest with zoomRecordingLink := JsField.set "https://rec" } =
      (⟨200, true⟩,
       upsertBooking
         [⟨7, 10, 11, 12, 0, 0, 1800000, 50, PaymentStatus.pending, none, none,
           BookingStatus.scheduled⟩]
         ⟨7, 10, 11, 12, 0, 0, 1800000, 50, PaymentStatus.pending, none,
          some "https://rec", BookingStatus.scheduled⟩,
       []) :=
  ⟨c9_recording_link_not_gated.1 ⟨[10, 11], [12], Except.error "down", Except.ok (), 1, 5⟩
      [] [] 10 11 12 0 (0, 1800000) 50 "https://rec"
      (by decide) (by decide) (by decide) (by decide),
   c9_recording_link_not_gated.2 ⟨[10, 11], [12], Except.error "down", Except.ok (), 1, 5⟩
      _ [] 7
      ⟨7, 10, 11, 12, 0, 0, 1800000, 50, PaymentStatus.pending, none, none,
       BookingStatus.scheduled⟩ "https://rec" (by decide) (by decide)⟩

/-- C10: a provided signature whose byte length differs from the expected
`v0=`-prefixed signature makes `timingSafeEqual` throw; the outer handler
catches it and answers 200 with success:false (not 401) without touching
the stores; conversely, a 401 is produced only when the provided and
expected signatures have equal length but differ in content. -/
theorem c10_length_mismatch_not_401 :
    (∀ (secret sig ts body : List Nat) (event : String) (pt pmid : Option String)
       (wf : Option (List RecordingFile)) (env : WebhookEnv)
       (sdb : List ZoomSession) (bdb : List Booking),
       secret ≠ [] → (event == "endpoint.url_validation") = false →
       sig ≠ [] → ts ≠ [] →
       sig.length ≠ (expectedSignature secret ts body).length →
       handleWebhookEvent secret (some sig) (some ts) body event pt pmid wf env sdb bdb =
         (⟨200, false⟩, sdb, bdb)) ∧
    (∀ (secret : List Nat) (osig ots : Option (List Nat)) (body : List Nat)
       (event : String) (pt pmid : Option String) (wf : Option (List RecordingFile))
       (env : WebhookEnv) (sdb : List ZoomSession) (bdb : List Booking),
       (handleWebhookEvent secret osig ots body event pt pmid wf env sdb bdb).1.status =
         401 →
       ∃ sig, osig = some sig ∧
         sig.length = (expectedSignature secret (ots.getD []) body).length ∧
         sig ≠ expectedSignature secret (ots.getD []) body) := by
  constructor
  · intro secret sig ts body event pt pmid wf env sdb bdb hsecret hev hsig hts hlen
    unfold handleWebhookEvent
    simp only [hev, Bool.false_eq_true, if_false]
    have h1 : bytesTruthy (some sig) = true := by
      simp [bytesTruthy, List.isEmpty_iff, hsig]
    have h2 : bytesTruthy (some ts) = true := by
      simp [bytesTruthy, List.isEmpty_iff, hts]
    rw [h1, h2]
    simp only [Bool.and_self, if_true]
    dsimp only [Option.getD_some]
    unfold verifyWebhookSignature
    have hse : secret.isEmpty = false := by simp [List.isEmpty_iff, hsecret]
    rw [hse]
    simp only [Bool.false_eq_true, if_false]
    unfold expectedSignature at hlen
    rw [if_neg hlen]
  · intro secret osig ots body event pt pmid wf env sdb bdb h
    unfold handleWebhookEvent at h
    by_cases hev : (event == "endpoint.url_validation") = true
    · rw [if_pos hev] at h
      cases pt with
      | none => simp at h
      | some p => simp at h
    · rw [if_neg hev] at h
      by_cases hb : (bytesTruthy osig && bytesTruthy ots) = true
      · rw [if_pos hb] at h
        cases hv : verifyWebhookSignature secret body (osig.getD []) (ots.getD []) with
        | error u => rw [hv] at h; simp at h
        | ok b =>
          cases b with
          | true => rw [hv] at h; simp at h
          | false =>
            unfold verifyWebhookSignature at hv
            by_cases hse : secret.isEmpty = true
            · rw [if_pos hse] at hv
              simp at hv
            · rw [if_neg hse] at hv
              by_cases hlen : (osig.getD []).length =
                  ([118, 48, 61] ++ hexBytes (hmacSha256 secret
                    ([118, 48, 58] ++ ots.getD [] ++ [58] ++ body))).length
              · rw [if_pos hlen] at hv
                simp only [Except.ok.injEq] at hv
                cases hos : osig with
                | none =>
                  rw [hos] at hb
                  simp [bytesTruthy] at hb
                | some sig =>
                  refine ⟨sig, rfl, ?_, ?_⟩
                  · rw [hos] at hlen
                    simpa [expectedSignature] using hlen
                  · intro hc
                    rw [hos] at hv
                    dsimp only [Option.getD_some] at hv
                    rw [hc] at hv
                    simp [expectedSignature] at hv
              · rw [if_neg hlen] at hv
                simp at hv
      · rw [if_neg hb] at h
        simp at h

/-- C10 witness: a one-byte signature (length 1 against the expected 67)
yields 200 with success:false, not 401. -/
theorem c10_length_mismatch_not_401_witness :
    handleWebhookEvent [109, 121, 115, 101, 99, 114, 101, 116] (some [120])
        (some [49, 55, 48, 48, 48, 48, 48, 48, 48, 48])
        [123, 34, 101, 118, 101, 110, 116, 34, 58, 34, 109, 101, 101, 116, 105, 110, 103,
         46, 115, 116, 97, 114, 116, 101, 100, 34, 125]
        "meeting.started" none none none ⟨0, Except.error "e"⟩ [] [] =
      (⟨200, false⟩, [], []) :=
  c10_length_mismatch_not_401.1 [109, 121, 115, 101, 99, 114, 101, 116] [120]
    [49, 55, 48, 48, 48, 48, 48, 48, 48, 48]
    [123, 34, 101, 118, 101, 110, 116, 34, 58, 34, 109, 101, 101, 116, 105, 110, 103,
     46, 115, 116, 97, 114, 116, 101, 100, 34, 125]
    "meeting.started" none none none ⟨0, Except.error "e"⟩ [] []
    (by decide) (by decide) (by decide) (by decide)
    (by simp [expectedSignature_length])
